import Mathlib

/-!
# Elegant La Vie / Oud & Essence — checkout core, shallow embedding

This file embeds, as executable Lean definitions, the checkout and
payment-confirmation logic of the repository:

* the `POST /api/checkout` handler of the Elegant La Vie worker
  (price resolution via `sale_price_pkr ?? price_pkr`, quantity coercion
  `Math.max(1, parseInt(q) || 1)`, stock validation, shipping/wrapping fee
  computation, and persistence of the order header followed by a batch of
  order-item inserts);
* the `POST /api/checkout/webhook` handler of the Oud & Essence worker
  (signature check, `payment_intent.succeeded` dispatch, and the
  `UPDATE orders SET status = 'paid', stripe_charge_id = ? WHERE
  stripe_payment_intent = ?` statement).

Monetary amounts are modelled as `Int` (the values are whole PKR rupees /
cents; the arithmetic performed by the code on them is exact integer
arithmetic).  Database rows are records, tables are lists of rows.  The
`datetime('now')` columns and the WhatsApp-message rendering are not part
of any verified property and are omitted.  The result of JavaScript
`parseInt` on the raw quantity is modelled as `Option Int` (`none` for a
`NaN` result on non-numeric input; a fractional numeral parses to its
truncated integer part, zero and negative numerals to themselves).
-/

/-- A row of the `products` table, restricted to the columns the checkout
reads (`SELECT id, name, price_pkr, sale_price_pkr, stock, is_active`). -/
structure Product where
  id : Nat
  name : String
  price_pkr : Int
  sale_price_pkr : Option Int
  stock : Int
  is_active : Bool
deriving DecidableEq, Repr

/-- One raw cart line `{product_id, quantity}` from the request body; the
`quantity` field holds the result of `parseInt(item.quantity)` (`none` =
`NaN`, from non-numeric input). -/
structure CartItem where
  product_id : Nat
  quantity : Option Int
deriving DecidableEq, Repr

/-- Models `Math.max(1, parseInt(item.quantity) || 1)`: a `NaN` (`none`) or zero
parse result is replaced by `1` (both are falsy), then clamped below by
`1`. -/
def coerceQty (q : Option Int) : Int :=
  max 1 (match q with
    | none => 1
    | some n => if n = 0 then 1 else n)

/-- Models `product.sale_price_pkr ?? product.price_pkr`: the sale price whenever
it is non-null (the nullish coalescing does not compare it with the list
price), otherwise the list price. -/
def unitPriceOf (p : Product) : Int :=
  p.sale_price_pkr.getD p.price_pkr

/-- The glossary's effective-price rule, stated from the spec's words for
comparison with `unitPriceOf`: the sale price if set *and lower than the
list price*, else the list price. -/
def specEffectivePrice (p : Product) : Int :=
  match p.sale_price_pkr with
  | some sp => if sp < p.price_pkr then sp else p.price_pkr
  | none => p.price_pkr

/-- The errors the checkout handler can exit with (each corresponds to one
`return jsonError(...)` in the handler, plus the injected store failure). -/
inductive CheckoutError where
  | missingName
  | missingPhone
  | missingCity
  | missingAddress
  | emptyCart
  | invalidPaymentMethod
  | invalidWrapping
  | productNotFound (product_id : Nat)
  | productUnavailable (name : String)
  | insufficientStock (name : String) (stock : Int)
  | storageFailure
deriving DecidableEq, Repr

instance {ε α : Type} [DecidableEq ε] [DecidableEq α] : DecidableEq (Except ε α) := fun a b =>
  match a, b with
  | Except.ok x, Except.ok y =>
    if h : x = y then isTrue (by rw [h])
    else isFalse (fun hc => h (Except.ok.inj hc))
  | Except.error x, Except.error y =>
    if h : x = y then isTrue (by rw [h])
    else isFalse (fun hc => h (Except.error.inj hc))
  | Except.ok _, Except.error _ => isFalse (fun hc => Except.noConfusion hc)
  | Except.error _, Except.ok _ => isFalse (fun hc => Except.noConfusion hc)

/-- One element of the handler's `lineItems` array. -/
structure LineItem where
  product_id : Nat
  product_name : String
  quantity : Int
  unit_price_pkr : Int
  line_total_pkr : Int
deriving DecidableEq, Repr

/-- The line item the loop pushes for a resolved product and coerced
quantity. -/
def mkLineItem (p : Product) (qty : Int) : LineItem :=
  { product_id := p.id
    product_name := p.name
    quantity := qty
    unit_price_pkr := unitPriceOf p
    line_total_pkr := unitPriceOf p * qty }

/-- The `for (const item of items)` validation loop: coerce the quantity,
look the product up in the fetched snapshot (`dbProducts.find`), fail on a
missing product, an inactive product, or `product.stock < qty`, and
otherwise push the line item.  The snapshot is not modified between
iterations, so repeated lines for one product are each checked against the
same stock value. -/
def buildLineItems (catalog : List Product) : List CartItem → Except CheckoutError (List LineItem)
  | [] => Except.ok []
  | item :: rest =>
    let qty := coerceQty item.quantity
    match List.find? (fun p => p.id == item.product_id) catalog with
    | none => Except.error (CheckoutError.productNotFound item.product_id)
    | some p =>
      if p.is_active = false then
        Except.error (CheckoutError.productUnavailable p.name)
      else if p.stock < qty then
        Except.error (CheckoutError.insufficientStock p.name p.stock)
      else
        match buildLineItems catalog rest with
        | Except.error e => Except.error e
        | Except.ok tail => Except.ok (mkLineItem p qty :: tail)

/-- The `VALID_PAYMENTS` list from the handler. -/
def VALID_PAYMENTS : List String := ["cod", "easypaisa", "jazzcash", "bank"]

/-- The `VALID_WRAPPING` list from the handler. -/
def VALID_WRAPPING : List String := ["none", "standard", "premium"]

/-- The constant `FREE_SHIPPING_THRESHOLD = 5000`. -/
def FREE_SHIPPING_THRESHOLD : Int := 5000

/-- Models `SHIPPING_PKR = subtotalPkr >= FREE_SHIPPING_THRESHOLD ? 0 : 200`. -/
def shippingFee (subtotal : Int) : Int :=
  if FREE_SHIPPING_THRESHOLD ≤ subtotal then 0 else 200

/-- Models the lookup `WRAPPING_FEES[gift_wrapping] ?? 0` in the table
`WRAPPING_FEES = \x7b none: 0, standard: 300, premium: 600 \x7d`, with the
fallback 0 for a key absent from the table. -/
def wrappingFee (w : String) : Int :=
  if w = "none" then 0
  else if w = "standard" then 300
  else if w = "premium" then 600
  else 0

/-- The constant `DISCOUNT_PKR = 0` (the coupon hook is a no-op). -/
def DISCOUNT_PKR : Int := 0

/-- The checkout request body, restricted to the fields the verified
properties touch.  `payment_method` and `gift_wrapping` are `Option` so
that an omitted field (JavaScript `undefined`, triggering the destructuring
defaults `'cod'` / `'none'`) is distinguishable from a supplied value. -/
structure CheckoutRequest where
  customer_name : String
  customer_phone : String
  customer_city : String
  customer_address : String
  payment_method : Option String
  gift_wrapping : Option String
  items : List CartItem
deriving DecidableEq, Repr

/-- JavaScript `String.prototype.trim`: the string with leading and
trailing whitespace removed. -/
def jsTrim (s : String) : String :=
  String.mk ((s.data.dropWhile Char.isWhitespace).reverse.dropWhile Char.isWhitespace).reverse

/-- The early-exit validations of the handler, in source order: the four
required trimmed customer fields (`!field?.trim()`), the empty-cart check,
then the `VALID_PAYMENTS` / `VALID_WRAPPING` membership checks. -/
def validateRequest (req : CheckoutRequest) : Option CheckoutError :=
  if jsTrim req.customer_name = "" then some CheckoutError.missingName
  else if jsTrim req.customer_phone = "" then some CheckoutError.missingPhone
  else if jsTrim req.customer_city = "" then some CheckoutError.missingCity
  else if jsTrim req.customer_address = "" then some CheckoutError.missingAddress
  else if req.items.isEmpty then some CheckoutError.emptyCart
  else if (VALID_PAYMENTS.contains (req.payment_method.getD ("cod"))) = false then
    some CheckoutError.invalidPaymentMethod
  else if (VALID_WRAPPING.contains (req.gift_wrapping.getD ("none"))) = false then
    some CheckoutError.invalidWrapping
  else none

/-- A persisted `orders` header row (monetary and identity columns). -/
structure OrderRow where
  id : Nat
  subtotal_pkr : Int
  shipping_pkr : Int
  discount_pkr : Int
  total_pkr : Int
deriving DecidableEq, Repr

/-- A persisted `order_items` row. -/
structure ItemRow where
  order_id : Nat
  product_id : Nat
  product_name : String
  quantity : Int
  unit_price_pkr : Int
  line_total_pkr : Int
deriving DecidableEq, Repr

/-- The row the item batch binds for one line item
(`orderId, li.product_id, li.product_name, li.quantity, li.unit_price_pkr,
li.line_total_pkr`). -/
def itemRowOf (oid : Nat) (li : LineItem) : ItemRow :=
  { order_id := oid
    product_id := li.product_id
    product_name := li.product_name
    quantity := li.quantity
    unit_price_pkr := li.unit_price_pkr
    line_total_pkr := li.line_total_pkr }

/-- The two tables the checkout writes. -/
structure DB where
  orders : List OrderRow
  order_items : List ItemRow
deriving DecidableEq, Repr

/-- The `AUTOINCREMENT` id the header `INSERT ... RETURNING id` yields. -/
def nextOrderId (db : DB) : Nat := db.orders.length + 1

/-- The `summary` object of the checkout response. -/
structure CheckoutSummary where
  items : List LineItem
  subtotal_pkr : Int
  shipping_pkr : Int
  discount_pkr : Int
  wrapping_fee : Int
  total_pkr : Int
  free_shipping : Bool
deriving DecidableEq, Repr

/-- The `POST /api/checkout` handler over an explicit database state.
Validation, price resolution, totals and persistence follow the source
step by step.  Persistence is two separate D1 calls — the header
`INSERT ... RETURNING id` (its own implicitly committed statement) and then
`db.batch(...)` over the item inserts (one atomic batch) — so the model
commits the header row before attempting the batch.  `batchFails` injects a
store failure into the item batch: the batch's own rows are rolled back but
the already committed header statement is not. -/
def checkoutHandler (catalog : List Product) (req : CheckoutRequest) (db : DB)
    (batchFails : Bool) : Except CheckoutError (CheckoutSummary × Nat) × DB :=
  match validateRequest req with
  | some e => (Except.error e, db)
  | none =>
    match buildLineItems catalog req.items with
    | Except.error e => (Except.error e, db)
    | Except.ok lineItems =>
      let subtotalPkr := (lineItems.map LineItem.line_total_pkr).sum
      let SHIPPING_PKR := shippingFee subtotalPkr
      let WRAPPING_FEE := wrappingFee (req.gift_wrapping.getD ("none"))
      let totalPkr := subtotalPkr + SHIPPING_PKR + WRAPPING_FEE - DISCOUNT_PKR
      let orderId := nextOrderId db
      let header : OrderRow :=
        { id := orderId
          subtotal_pkr := subtotalPkr
          shipping_pkr := SHIPPING_PKR
          discount_pkr := DISCOUNT_PKR
          total_pkr := totalPkr }
      let db1 : DB := { db with orders := db.orders ++ [header] }
      if batchFails then
        (Except.error CheckoutError.storageFailure, db1)
      else
        let db2 : DB :=
          { db1 with order_items := db1.order_items ++ lineItems.map (itemRowOf orderId) }
        (Except.ok
          ({ items := lineItems
             subtotal_pkr := subtotalPkr
             shipping_pkr := SHIPPING_PKR
             discount_pkr := DISCOUNT_PKR
             wrapping_fee := WRAPPING_FEE
             total_pkr := totalPkr
             free_shipping := SHIPPING_PKR = 0 }, orderId), db2)

/-!
## Webhook handler (Oud & Essence worker)

`POST /api/checkout/webhook`: signature verification (the call to
`stripe.webhooks.constructEventAsync`, abstracted to a boolean outcome of
the shared-secret check), a `400` exit with no database access on failure,
and on a verified `payment_intent.succeeded` event the single statement
`UPDATE orders SET status = 'paid', stripe_charge_id = ?, updated_at =
datetime('now') WHERE stripe_payment_intent = ?` bound to
`(pi.latest_charge ?? '', pi.id)`; every other verified event type is
acknowledged without touching the store.  The handler always ends in
`c.json({ received: true })`, an HTTP 200. -/

/-- An `orders` row of the Oud & Essence schema, restricted to the columns
the webhook statement reads or writes. -/
structure StripeOrder where
  id : Nat
  status : String
  stripe_payment_intent : Option String
  stripe_charge_id : Option String
deriving DecidableEq, Repr

/-- A verified webhook event: its `type`, the payment intent id `pi.id`,
and `pi.latest_charge` (nullable). -/
structure StripeEvent where
  type : String
  intent_id : String
  latest_charge : Option String
deriving DecidableEq, Repr

/-- The effect of the `UPDATE ... WHERE stripe_payment_intent = ?` on one
row: a row whose intent column matches the event's intent id gets
`status = 'paid'` and `stripe_charge_id = pi.latest_charge ?? ''`; any
other row is untouched.  The `WHERE` clause carries no condition on the
row's current `status`. -/
def applyPaidUpdate (ev : StripeEvent) (o : StripeOrder) : StripeOrder :=
  if o.stripe_payment_intent = some ev.intent_id then
    { o with status := "paid", stripe_charge_id := some (ev.latest_charge.getD ("")) }
  else o

/-- The webhook handler: `sigValid` is the outcome of the signature
verification against the shared secret.  Returns the HTTP status and the
resulting `orders` table. -/
def webhookHandler (sigValid : Bool) (ev : StripeEvent) (orders : List StripeOrder) :
    Nat × List StripeOrder :=
  if sigValid = false then (400, orders)
  else if ev.type = "payment_intent.succeeded" then
    (200, orders.map (applyPaidUpdate ev))
  else (200, orders)

/-!
## Concrete fixtures

A one-product catalog and a well-formed request, used by the witness and
counterexample theorems.  The product is the seed row `Royal Oud`
(list price 7500, sale price 6500, stock 30). -/

/-- The seed product `Royal Oud`. -/
def royalOud : Product :=
  { id := 1, name := "Royal Oud", price_pkr := 7500, sale_price_pkr := some 6500
    stock := 30, is_active := true }

/-- A product whose sale price is *higher* than its list price (the schema
places no constraint between `sale_price_pkr` and `price_pkr`). -/
def raisedSale : Product :=
  { id := 2, name := "Raised", price_pkr := 800, sale_price_pkr := some 1000
    stock := 10, is_active := true }

/-- A product with stock 4, for the duplicate-line stock check. -/
def lowStock : Product :=
  { id := 3, name := "Low", price_pkr := 500, sale_price_pkr := none
    stock := 4, is_active := true }

/-- The empty database. -/
def db0 : DB := { orders := [], order_items := [] }

/-- A well-formed request for two units of `Royal Oud`, payment and
wrapping omitted (destructuring defaults apply). -/
def req1 : CheckoutRequest :=
  { customer_name := "Ali", customer_phone := "03001234567"
    customer_city := "Lahore", customer_address := "12 Mall Road"
    payment_method := none, gift_wrapping := none
    items := [{ product_id := 1, quantity := some 2 }] }

/-!
## Helper lemmas
-/

theorem one_le_coerceQty (q : Option Int) : 1 ≤ coerceQty q :=
  le_max_left _ _

theorem wrappingFee_nonneg (w : String) : 0 ≤ wrappingFee w := by
  unfold wrappingFee
  split
  · exact le_refl 0
  · split
    · norm_num
    · split
      · norm_num
      · exact le_refl 0

theorem shippingFee_nonneg (s : Int) : 0 ≤ shippingFee s := by
  unfold shippingFee
  split
  · exact le_refl 0
  · norm_num

/-- Inversion of a successful validation loop: every produced line item
comes from some raw cart line, via the first catalog row matching its
product id, which is active and has stock at least the coerced quantity. -/
theorem buildLineItems_mem {catalog : List Product} {items : List CartItem}
    {lis : List LineItem} (h : buildLineItems catalog items = Except.ok lis) :
    ∀ li ∈ lis, ∃ raw ∈ items, ∃ p,
      List.find? (fun q => q.id == raw.product_id) catalog = some p ∧
      p.is_active = true ∧ coerceQty raw.quantity ≤ p.stock ∧
      li = mkLineItem p (coerceQty raw.quantity) := by
  induction items generalizing lis with
  | nil =>
    simp only [buildLineItems, Except.ok.injEq] at h
    subst h
    intro li hli
    simp at hli
  | cons item rest ih =>
    intro li hli
    rw [buildLineItems] at h
    split at h
    · simp at h
    · rename_i p hfind
      split at h
      · simp at h
      · rename_i hact
        split at h
        · simp at h
        · rename_i hstock
          split at h
          · simp at h
          · rename_i tail hrest
            simp only [Except.ok.injEq] at h
            subst h
            rcases List.mem_cons.mp hli with heq | hmem
            · exact ⟨item, List.mem_cons_self _ _, p, hfind,
                eq_true_of_ne_false hact, le_of_not_lt hstock, heq⟩
            · obtain ⟨raw, hraw, hrest2⟩ := ih hrest li hmem
              exact ⟨raw, List.mem_cons_of_mem _ hraw, hrest2⟩

/-- The validation loop succeeds as soon as every raw line individually
resolves to an active product with enough stock for that line alone. -/
theorem buildLineItems_ok_of_valid {catalog : List Product} {items : List CartItem}
    (h : ∀ raw ∈ items, ∃ p,
      List.find? (fun q => q.id == raw.product_id) catalog = some p ∧
      p.is_active = true ∧ coerceQty raw.quantity ≤ p.stock) :
    ∃ lis, buildLineItems catalog items = Except.ok lis := by
  induction items with
  | nil => exact ⟨[], rfl⟩
  | cons item rest ih =>
    obtain ⟨p, hfind, hact, hstock⟩ := h item (List.mem_cons_self _ _)
    obtain ⟨tail, htail⟩ := ih (fun raw hraw => h raw (List.mem_cons_of_mem _ hraw))
    refine ⟨mkLineItem p (coerceQty item.quantity) :: tail, ?_⟩
    rw [buildLineItems, hfind]
    simp only [hact, htail]
    rw [if_neg (by simp), if_neg (not_lt.mpr hstock)]

/-- Inversion of a successful checkout: the returned summary satisfies the
source's defining equations and the database gained exactly one header row
and the mapped item rows. -/
theorem checkoutHandler_ok {catalog : List Product} {req : CheckoutRequest}
    {db : DB} {s : CheckoutSummary} {oid : Nat} {db2 : DB}
    (h : checkoutHandler catalog req db false = (Except.ok (s, oid), db2)) :
    validateRequest req = none ∧
    buildLineItems catalog req.items = Except.ok s.items ∧
    s.subtotal_pkr = (s.items.map LineItem.line_total_pkr).sum ∧
    s.shipping_pkr = shippingFee s.subtotal_pkr ∧
    s.wrapping_fee = wrappingFee (req.gift_wrapping.getD ("none")) ∧
    s.discount_pkr = DISCOUNT_PKR ∧
    s.total_pkr = s.subtotal_pkr + s.shipping_pkr + s.wrapping_fee - s.discount_pkr ∧
    oid = nextOrderId db ∧
    db2.orders = db.orders ++
      [{ id := oid, subtotal_pkr := s.subtotal_pkr, shipping_pkr := s.shipping_pkr,
         discount_pkr := s.discount_pkr, total_pkr := s.total_pkr }] ∧
    db2.order_items = db.order_items ++ s.items.map (itemRowOf oid) := by
  unfold checkoutHandler at h
  split at h
  · simp at h
  · rename_i hval
    split at h
    · simp at h
    · rename_i lineItems hbuild
      rw [if_neg Bool.false_ne_true] at h
      simp only [Prod.mk.injEq, Except.ok.injEq] at h
      obtain ⟨⟨hs, hoid⟩, hdb⟩ := h
      subst hs
      subst hoid
      subst hdb
      exact ⟨hval, hbuild, rfl, rfl, rfl, rfl, rfl, rfl, rfl, rfl⟩

/-- The line item the checkout of `req1` against `[royalOud]` produces. -/
def li1 : LineItem :=
  { product_id := 1, product_name := "Royal Oud", quantity := 2
    unit_price_pkr := 6500, line_total_pkr := 13000 }

/-- The summary the checkout of `req1` against `[royalOud]` returns. -/
def summary1 : CheckoutSummary :=
  { items := [li1], subtotal_pkr := 13000, shipping_pkr := 0, discount_pkr := 0
    wrapping_fee := 0, total_pkr := 13000, free_shipping := true }

/-- The database state after the checkout of `req1` against `[royalOud]`. -/
def dbAfter1 : DB :=
  { orders := [{ id := 1, subtotal_pkr := 13000, shipping_pkr := 0
                 discount_pkr := 0, total_pkr := 13000 }]
    order_items := [{ order_id := 1, product_id := 1, product_name := "Royal Oud"
                      quantity := 2, unit_price_pkr := 6500, line_total_pkr := 13000 }] }

/-- The request `req1` with one unit of the `raisedSale` product instead. -/
def reqRaised : CheckoutRequest :=
  { customer_name := "Ali", customer_phone := "03001234567"
    customer_city := "Lahore", customer_address := "12 Mall Road"
    payment_method := none, gift_wrapping := none
    items := [{ product_id := 2, quantity := some 1 }] }

/-- The request `req1` with an unrecognised gift-wrapping selection. -/
def reqBadWrap : CheckoutRequest :=
  { customer_name := "Ali", customer_phone := "03001234567"
    customer_city := "Lahore", customer_address := "12 Mall Road"
    payment_method := none, gift_wrapping := some ("giftbox")
    items := [{ product_id := 1, quantity := some 1 }] }

/-- Two cart lines for the same product id 3, three units each. -/
def cartTwoLines : List CartItem :=
  [{ product_id := 3, quantity := some 3 }, { product_id := 3, quantity := some 3 }]

/-- An order already cancelled, correlated to payment intent `pi_7`. -/
def cancelledOrder : StripeOrder :=
  { id := 7, status := "cancelled", stripe_payment_intent := some ("pi_7")
    stripe_charge_id := some ("ch_old") }

/-- A verified `payment_intent.succeeded` event for intent `pi_7`. -/
def evPaid7 : StripeEvent :=
  { type := "payment_intent.succeeded", intent_id := "pi_7", latest_charge := some ("ch_new") }

/-- An event whose intent id matches no stored order. -/
def evUnmatched : StripeEvent :=
  { type := "payment_intent.succeeded", intent_id := "pi_404", latest_charge := none }

/-- An event of a type the handler ignores. -/
def evIgnored : StripeEvent :=
  { type := "charge.refunded", intent_id := "pi_7", latest_charge := none }

/-!
## Claim theorems
-/

/-- Reads the first line item's unit price out of a checkout result. -/
def firstUnitPrice (r : Except CheckoutError (CheckoutSummary × Nat) × DB) : Option Int :=
  match r.1 with
  | Except.ok (s, _) => s.items.head?.map LineItem.unit_price_pkr
  | Except.error _ => none

/-- C1, counterexample: for the product `raisedSale` (list price 800, sale
price 1000) the checkout prices the line at 1000 — the sale price although
it is NOT lower than the list price — whereas the claim's rule (the
glossary's effective price) yields 800. -/
theorem unit_price_claim_cex :
    firstUnitPrice (checkoutHandler [raisedSale] reqRaised db0 false) = some 1000 ∧
    specEffectivePrice raisedSale = 800 ∧ (1000 : Int) ≠ 800 :=
  ⟨rfl, rfl, by decide⟩

/-- C1, amended: the unit price used for a resolved line item equals the
sale price whenever a sale price is present — with no comparison against
the list price — and the list price otherwise. -/
theorem checkout_unit_price_nullish_sale (catalog : List Product)
    (req : CheckoutRequest) (db : DB) (s : CheckoutSummary) (oid : Nat) (db2 : DB)
    (h : checkoutHandler catalog req db false = (Except.ok (s, oid), db2)) :
    ∀ li ∈ s.items, ∃ raw, raw ∈ req.items ∧ ∃ p,
      List.find? (fun q => q.id == raw.product_id) catalog = some p ∧
      li.product_id = p.id ∧
      li.unit_price_pkr =
        (match p.sale_price_pkr with
         | some sp => sp
         | none => p.price_pkr) := by
  intro li hli
  obtain ⟨-, hbuild, -⟩ := checkoutHandler_ok h
  obtain ⟨raw, hraw, p, hfind, -, -, hl⟩ := buildLineItems_mem hbuild li hli
  subst hl
  refine ⟨raw, hraw, p, hfind, rfl, ?_⟩
  show unitPriceOf p = _
  unfold unitPriceOf
  cases p.sale_price_pkr <;> rfl

/-- Witness for the amended C1 theorem at the fixture checkout. -/
theorem checkout_unit_price_nullish_sale_witness :
    ∃ raw, raw ∈ req1.items ∧ ∃ p,
      List.find? (fun q => q.id == raw.product_id) [royalOud] = some p ∧
      li1.product_id = p.id ∧
      li1.unit_price_pkr =
        (match p.sale_price_pkr with
         | some sp => sp
         | none => p.price_pkr) :=
  checkout_unit_price_nullish_sale [royalOud] req1 db0 summary1 1 dbAfter1 rfl li1 (by decide)

/-- C2, counterexample: with the item batch failing on the fixture
checkout, the attempt returns the storage error yet leaves exactly one
header row and zero item rows — the header insert was not rolled back. -/
theorem order_atomicity_cex :
    (checkoutHandler [royalOud] req1 db0 true).1 = Except.error CheckoutError.storageFailure ∧
    (checkoutHandler [royalOud] req1 db0 true).2.orders.length = 1 ∧
    (checkoutHandler [royalOud] req1 db0 true).2.order_items = [] :=
  ⟨rfl, rfl, rfl⟩

/-- C2, amended: the item batch is atomic on its own, but the header insert
is a separate, earlier statement: whenever the request passes validation
and the item batch then fails, the call returns a storage error with the
header row still persisted and no item rows for the attempt. -/
theorem order_header_survives_batch_failure (catalog : List Product)
    (req : CheckoutRequest) (db : DB) (lineItems : List LineItem)
    (hval : validateRequest req = none)
    (hbuild : buildLineItems catalog req.items = Except.ok lineItems) :
    checkoutHandler catalog req db true =
      (Except.error CheckoutError.storageFailure,
       { orders := db.orders ++
           [{ id := nextOrderId db
              subtotal_pkr := (lineItems.map LineItem.line_total_pkr).sum
              shipping_pkr := shippingFee (lineItems.map LineItem.line_total_pkr).sum
              discount_pkr := DISCOUNT_PKR
              total_pkr := (lineItems.map LineItem.line_total_pkr).sum
                + shippingFee ((lineItems.map LineItem.line_total_pkr).sum)
                + wrappingFee (req.gift_wrapping.getD ("none")) - DISCOUNT_PKR }]
         order_items := db.order_items }) := by
  unfold checkoutHandler
  rw [hval, hbuild]
  rfl

/-- Witness for the amended C2 theorem at the fixture checkout. -/
theorem order_header_survives_batch_failure_witness :
    checkoutHandler [royalOud] req1 db0 true =
      (Except.error CheckoutError.storageFailure,
       { orders := [{ id := 1, subtotal_pkr := 13000, shipping_pkr := 0
                      discount_pkr := 0, total_pkr := 13000 }]
         order_items := [] }) :=
  order_header_survives_batch_failure [royalOud] req1 db0 [li1] rfl rfl

/-- C3: a successful checkout's grand total — both the one in the response
summary and the one frozen on the persisted header row — equals
subtotal + shipping fee + surcharge − discount, and is nonnegative for any
catalog of nonnegative resolved unit prices. -/
theorem checkout_total_formula (catalog : List Product) (req : CheckoutRequest)
    (db : DB) (s : CheckoutSummary) (oid : Nat) (db2 : DB)
    (h : checkoutHandler catalog req db false = (Except.ok (s, oid), db2)) :
    s.total_pkr = s.subtotal_pkr + s.shipping_pkr + s.wrapping_fee - s.discount_pkr ∧
    (∃ hdr, db2.orders = db.orders ++ [hdr] ∧
      hdr.subtotal_pkr = s.subtotal_pkr ∧ hdr.shipping_pkr = s.shipping_pkr ∧
      hdr.discount_pkr = s.discount_pkr ∧ hdr.total_pkr = s.total_pkr) ∧
    ((∀ p ∈ catalog, 0 ≤ unitPriceOf p) → 0 ≤ s.total_pkr) := by
  obtain ⟨-, hbuild, hsub, hship, hwrap, hdisc, htot, -, horders, -⟩ := checkoutHandler_ok h
  refine ⟨htot, ⟨_, horders, rfl, rfl, rfl, rfl⟩, ?_⟩
  intro hp
  have hsubn : 0 ≤ s.subtotal_pkr := by
    rw [hsub]
    apply List.sum_nonneg
    intro x hx
    simp only [List.mem_map] at hx
    obtain ⟨li, hli, rfl⟩ := hx
    obtain ⟨raw, hraw, p, hfind, -, -, rfl⟩ := buildLineItems_mem hbuild li hli
    show 0 ≤ unitPriceOf p * coerceQty raw.quantity
    have h1 : 0 ≤ unitPriceOf p := hp p (List.mem_of_find?_eq_some hfind)
    have h2 : (0 : Int) ≤ coerceQty raw.quantity :=
      le_trans (by norm_num) (one_le_coerceQty raw.quantity)
    exact mul_nonneg h1 h2
  have hd : DISCOUNT_PKR = 0 := rfl
  rw [htot, hship, hwrap, hdisc]
  have hs := shippingFee_nonneg s.subtotal_pkr
  have hw := wrappingFee_nonneg (req.gift_wrapping.getD ("none"))
  linarith [hsubn, hs, hw, hd]

/-- Witness for C3 at the fixture checkout. -/
theorem checkout_total_formula_witness :
    summary1.total_pkr = summary1.subtotal_pkr + summary1.shipping_pkr
      + summary1.wrapping_fee - summary1.discount_pkr ∧
    0 ≤ summary1.total_pkr :=
  ⟨(checkout_total_formula [royalOud] req1 db0 summary1 1 dbAfter1 rfl).1,
   (checkout_total_formula [royalOud] req1 db0 summary1 1 dbAfter1 rfl).2.2 (by decide)⟩

/-- C4: a successful checkout's shipping fee is `shippingFee` of its
subtotal; the fee is 0 at or above the threshold 5000 and the flat 200
below it; in particular subtotal 5000 ships free and 4999 pays 200. -/
theorem shipping_fee_rule :
    (∀ catalog req db s oid db2,
      checkoutHandler catalog req db false = (Except.ok (s, oid), db2) →
      s.shipping_pkr = shippingFee s.subtotal_pkr) ∧
    (∀ x : Int, (FREE_SHIPPING_THRESHOLD ≤ x → shippingFee x = 0) ∧
      (x < FREE_SHIPPING_THRESHOLD → shippingFee x = 200)) ∧
    shippingFee 5000 = 0 ∧ shippingFee 4999 = 200 := by
  refine ⟨?_, ?_, by decide, by decide⟩
  · intro catalog req db s oid db2 h
    exact (checkoutHandler_ok h).2.2.2.1
  · intro x
    constructor
    · intro hx; unfold shippingFee; rw [if_pos hx]
    · intro hx; unfold shippingFee; rw [if_neg (not_le.mpr hx)]

/-- Witness for C4 at the fixture checkout and the threshold examples. -/
theorem shipping_fee_rule_witness :
    summary1.shipping_pkr = shippingFee summary1.subtotal_pkr ∧
    shippingFee 4999 = 200 ∧ shippingFee 5000 = 0 :=
  ⟨shipping_fee_rule.1 [royalOud] req1 db0 summary1 1 dbAfter1 rfl,
   (shipping_fee_rule.2.1 4999).2 (by decide),
   (shipping_fee_rule.2.1 5000).1 (by decide)⟩

/-- The per-row update is idempotent: a matching row is set to the same
`status`/`stripe_charge_id` values again, a non-matching row stays put. -/
theorem applyPaidUpdate_idem (ev : StripeEvent) (o : StripeOrder) :
    applyPaidUpdate ev (applyPaidUpdate ev o) = applyPaidUpdate ev o := by
  by_cases hm : o.stripe_payment_intent = some ev.intent_id
  · simp [applyPaidUpdate, hm]
  · simp [applyPaidUpdate, hm]

/-- C5: delivering the same verified event twice leaves the orders table
exactly as after one delivery, answers 200 both times, and creates no
extra row (the settlement reference lives on the order row itself). -/
theorem webhook_idempotent (ev : StripeEvent) (orders : List StripeOrder) :
    webhookHandler true ev (webhookHandler true ev orders).2 =
      (200, (webhookHandler true ev orders).2) ∧
    (webhookHandler true ev orders).1 = 200 ∧
    ((webhookHandler true ev orders).2).length = orders.length := by
  have hmap : List.map (applyPaidUpdate ev) (List.map (applyPaidUpdate ev) orders)
      = List.map (applyPaidUpdate ev) orders := by
    rw [List.map_map]
    exact List.map_congr_left (fun o _ => applyPaidUpdate_idem ev o)
  unfold webhookHandler
  by_cases ht : ev.type = "payment_intent.succeeded"
  · simp [ht, hmap]
  · simp [ht]

/-- C6, counterexample: a request selecting the unrecognised gift-wrapping
option `giftbox` is rejected with the invalid-wrapping error and no order
is written — the checkout does not proceed with surcharge 0. -/
theorem gift_wrapping_claim_cex :
    checkoutHandler [royalOud] reqBadWrap db0 false =
      (Except.error CheckoutError.invalidWrapping, db0) := rfl

/-- C6, amended: an omitted gift-wrapping selection defaults to `none`
and yields surcharge 0 with the checkout proceeding, but a supplied
selection outside none/standard/premium is rejected with the
invalid-wrapping error (HTTP 400) before any fee computation, leaving the
database untouched. -/
theorem gift_wrapping_rule :
    (∀ catalog req db s oid db2, req.gift_wrapping = none →
      checkoutHandler catalog req db false = (Except.ok (s, oid), db2) →
      s.wrapping_fee = 0) ∧
    (∀ catalog req db w, req.gift_wrapping = some w →
      VALID_WRAPPING.contains w = false →
      jsTrim req.customer_name ≠ "" → jsTrim req.customer_phone ≠ "" →
      jsTrim req.customer_city ≠ "" → jsTrim req.customer_address ≠ "" →
      req.items.isEmpty = false →
      VALID_PAYMENTS.contains (req.payment_method.getD ("cod")) = true →
      checkoutHandler catalog req db false =
        (Except.error CheckoutError.invalidWrapping, db)) := by
  constructor
  · intro catalog req db s oid db2 hgw h
    have hw := (checkoutHandler_ok h).2.2.2.2.1
    rw [hgw] at hw
    simpa [wrappingFee] using hw
  · intro catalog req db w hgw hcontains h1 h2 h3 h4 hitems hpay
    have hval : validateRequest req = some CheckoutError.invalidWrapping := by
      have hpmem : req.payment_method.getD ("cod") ∈ VALID_PAYMENTS := by
        simpa using hpay
      have hwmem : ¬ w ∈ VALID_WRAPPING := by
        simpa using hcontains
      unfold validateRequest
      rw [if_neg h1, if_neg h2, if_neg h3, if_neg h4, hgw]
      simp [hitems, hpmem, hwmem]
    unfold checkoutHandler
    rw [hval]

/-- Witness for the amended C6 theorem: the fixture checkout with wrapping
omitted has surcharge 0, and the `giftbox` request is rejected. -/
theorem gift_wrapping_rule_witness :
    summary1.wrapping_fee = 0 ∧
    checkoutHandler [royalOud] reqBadWrap db0 false =
      (Except.error CheckoutError.invalidWrapping, db0) :=
  ⟨gift_wrapping_rule.1 [royalOud] req1 db0 summary1 1 dbAfter1 rfl rfl,
   gift_wrapping_rule.2 [royalOud] reqBadWrap db0 ("giftbox") rfl (by decide)
     (by decide) (by decide) (by decide) (by decide) (by decide) (by decide)⟩

/-- C7: the coerced quantity is always an integer at least 1, and in every
successful checkout each returned line item and each newly persisted item
row satisfies line total = unit price snapshot × quantity with
quantity ≥ 1. -/
theorem quantity_coercion_rule :
    (∀ q : Option Int, 1 ≤ coerceQty q) ∧
    (∀ catalog req db s oid db2,
      checkoutHandler catalog req db false = (Except.ok (s, oid), db2) →
      (∀ li ∈ s.items, 1 ≤ li.quantity ∧
        li.line_total_pkr = li.unit_price_pkr * li.quantity) ∧
      (∀ row ∈ db2.order_items, row ∈ db.order_items ∨
        (1 ≤ row.quantity ∧
         row.line_total_pkr = row.unit_price_pkr * row.quantity))) := by
  refine ⟨one_le_coerceQty, ?_⟩
  intro catalog req db s oid db2 h
  obtain ⟨-, hbuild, -, -, -, -, -, -, -, hrows⟩ := checkoutHandler_ok h
  have hli : ∀ li ∈ s.items, 1 ≤ li.quantity ∧
      li.line_total_pkr = li.unit_price_pkr * li.quantity := by
    intro li hmem
    obtain ⟨raw, hraw, p, hfind, -, -, rfl⟩ := buildLineItems_mem hbuild li hmem
    exact ⟨one_le_coerceQty raw.quantity, rfl⟩
  refine ⟨hli, ?_⟩
  intro row hrow
  rw [hrows] at hrow
  rcases List.mem_append.mp hrow with hold | hnew
  · exact Or.inl hold
  · right
    simp only [List.mem_map] at hnew
    obtain ⟨li, hmem, rfl⟩ := hnew
    exact hli li hmem

/-- Witness for C7 at negative / non-numeric quantities and the fixture
checkout's line item. -/
theorem quantity_coercion_rule_witness :
    1 ≤ coerceQty (some (-3)) ∧ 1 ≤ coerceQty none ∧
    (1 ≤ li1.quantity ∧ li1.line_total_pkr = li1.unit_price_pkr * li1.quantity) :=
  ⟨quantity_coercion_rule.1 (some (-3)), quantity_coercion_rule.1 none,
   (quantity_coercion_rule.2 [royalOud] req1 db0 summary1 1 dbAfter1 rfl).1 li1 (by decide)⟩

/-- C8: the webhook answers 400 and leaves the store untouched exactly on
signature failure; every verified event is acknowledged with 200, and a
verified event of an ignored type, or whose intent id matches no order,
updates no row. -/
theorem webhook_exit_behavior (ev : StripeEvent) (orders : List StripeOrder) :
    webhookHandler false ev orders = (400, orders) ∧
    (webhookHandler true ev orders).1 = 200 ∧
    (ev.type ≠ "payment_intent.succeeded" →
      webhookHandler true ev orders = (200, orders)) ∧
    ((∀ o ∈ orders, o.stripe_payment_intent ≠ some ev.intent_id) →
      (webhookHandler true ev orders).2 = orders) := by
  refine ⟨rfl, ?_, ?_, ?_⟩
  · unfold webhookHandler
    by_cases ht : ev.type = "payment_intent.succeeded" <;> simp [ht]
  · intro ht
    unfold webhookHandler
    simp [ht]
  · intro hnone
    unfold webhookHandler
    by_cases ht : ev.type = "payment_intent.succeeded"
    · have hmap : List.map (applyPaidUpdate ev) orders = orders := by
        have h1 : List.map (applyPaidUpdate ev) orders = List.map id orders :=
          List.map_congr_left (fun o ho => by simp [applyPaidUpdate, hnone o ho])
        rw [h1, List.map_id]
      simp [ht, hmap]
    · simp [ht]

/-- Witness for C8: an ignored event type, an unmatched intent id, and a
signature failure, each against a one-order store. -/
theorem webhook_exit_behavior_witness :
    webhookHandler true evIgnored [cancelledOrder] = (200, [cancelledOrder]) ∧
    (webhookHandler true evUnmatched [cancelledOrder]).2 = [cancelledOrder] ∧
    webhookHandler false evPaid7 [cancelledOrder] = (400, [cancelledOrder]) :=
  ⟨(webhook_exit_behavior evIgnored [cancelledOrder]).2.2.1 (by decide),
   (webhook_exit_behavior evUnmatched [cancelledOrder]).2.2.2 (by decide),
   (webhook_exit_behavior evPaid7 [cancelledOrder]).1⟩

/-- C9: stock validation is per cart line against one catalog snapshot —
a cart passes whenever each line's coerced quantity alone is within the
resolved product's stock; in particular the two-line cart for product 3
(3 + 3 units) validates against stock 4. -/
theorem per_line_stock_validation :
    (∀ catalog items, (∀ raw ∈ items, ∃ p,
        List.find? (fun q => q.id == raw.product_id) catalog = some p ∧
        p.is_active = true ∧ coerceQty raw.quantity ≤ p.stock) →
      ∃ lis, buildLineItems catalog items = Except.ok lis) ∧
    (∃ lis, buildLineItems [lowStock] cartTwoLines = Except.ok lis) ∧
    lowStock.stock < coerceQty (some 3) + coerceQty (some 3) :=
  ⟨fun _ _ h => buildLineItems_ok_of_valid h,
   ⟨[mkLineItem lowStock 3, mkLineItem lowStock 3], rfl⟩,
   by decide⟩

/-- Witness for C9: the universal part applied to the duplicate-line cart,
each line being individually within stock. -/
theorem per_line_stock_validation_witness :
    ∃ lis, buildLineItems [lowStock] cartTwoLines = Except.ok lis :=
  per_line_stock_validation.1 [lowStock] cartTwoLines (by
    intro raw hraw
    simp only [cartTwoLines, List.mem_cons, List.not_mem_nil, or_false] at hraw
    rcases hraw with h | h <;> (subst h; exact ⟨lowStock, by decide⟩))

/-- C10: for a verified `payment_intent.succeeded` event, every order whose
stored intent matches is set to status `paid` with its charge reference
overwritten, regardless of its prior status — the `WHERE` clause carries no
status condition. -/
theorem webhook_update_unconditional (ev : StripeEvent) (o : StripeOrder)
    (orders : List StripeOrder)
    (ht : ev.type = "payment_intent.succeeded")
    (ho : o ∈ orders)
    (hm : o.stripe_payment_intent = some ev.intent_id) :
    { o with status := "paid",
             stripe_charge_id := some (ev.latest_charge.getD ("")) }
      ∈ (webhookHandler true ev orders).2 := by
  have hupd : applyPaidUpdate ev o =
      { o with status := "paid",
               stripe_charge_id := some (ev.latest_charge.getD ("")) } := by
    unfold applyPaidUpdate
    rw [if_pos hm]
  have hrun : webhookHandler true ev orders = (200, orders.map (applyPaidUpdate ev)) := by
    unfold webhookHandler
    rw [if_neg (by simp), if_pos ht]
  rw [hrun]
  exact hupd ▸ List.mem_map_of_mem (applyPaidUpdate ev) ho

/-- Witness for C10: a cancelled order is still flipped to `paid` and its
charge reference overwritten. -/
theorem webhook_update_unconditional_witness :
    { cancelledOrder with
        status := "paid"
        stripe_charge_id := some (evPaid7.latest_charge.getD ("")) }
      ∈ (webhookHandler true evPaid7 [cancelledOrder]).2 :=
  webhook_update_unconditional evPaid7 cancelledOrder [cancelledOrder] rfl (by decide) rfl
